import Mathlib

/-!
Verification development for the FABER workflow engine
(`faber` repository, Python sources under `src/python` and `src/sdk/py`).

Shallow embedding conventions:
* Python strings are Lean `String` / `List Char`.
* Python dicts with string keys are association lists with insertion-order
  update semantics (`pydict_set` mirrors `{**old, k: v}`).
* Machine floats used for money are embedded as exact rationals `ℚ`
  (the budget logic is a chain of comparisons; no float rounding decides
  any claim considered here).
* External nondeterminism (LLM agent invocations, wall-clock time, DNS)
  is passed in as oracle parameters; wall-clock durations are elided from
  `FaberPhaseResult` because no property here mentions them.
-/

/-! ## Python dict and list helpers -/

/-- Update semantics of the Python dict expression `{**old, key: v}`:
insertion order of existing keys is preserved, an existing key is
overwritten in place, a new key is appended. -/
def pydict_set {α : Type} (l : List (String × α)) (k : String) (v : α) :
    List (String × α) :=
  if l.any (fun p => p.1 == k) then
    l.map (fun p => if p.1 == k then (k, v) else p)
  else
    l ++ [(k, v)]

/-- Python dict lookup `d.get(k)`. -/
def pydict_get {α : Type} (l : List (String × α)) (k : String) : Option α :=
  (l.find? (fun p => p.1 == k)).map (fun p => p.2)

/-- Python `sub in s` on strings (substring containment). -/
def py_contains (sub s : String) : Bool :=
  decide (sub.data <:+: s.data)

/-- Python `s.upper()` restricted to ASCII (the decision markers `GO` /
`NO-GO` parsed by the evaluate node are ASCII). -/
def py_upper (s : String) : String :=
  ⟨s.data.map Char.toUpper⟩

/-- Python slicing `s[:n]` on a string (by code points, as in Python). -/
def py_take (s : String) (n : Nat) : String :=
  ⟨s.data.take n⟩

/-! ## Workflow state (src/sdk/py/faber/workflows/state.py)

`FaberPhaseResult` carries `phase`, `status`, `output`, `error`;
the wall-clock `duration_ms` field is elided (external time, unused by
every claim).  `FaberState` is restricted to the fields read or written
by the graph nodes and the result conversion. -/

structure FaberPhaseResult where
  phase : String
  status : String
  output : List (String × String) := []
  error : Option String := none
deriving DecidableEq, Repr

structure FaberState where
  current_phase : String
  completed_phases : List String
  phase_results : List (String × FaberPhaseResult)
  spec_validated : Bool
  evaluation_result : Option String
  retry_count : Nat
  error : Option String
  error_phase : Option String
deriving DecidableEq, Repr

/-- `create_initial_state` (state.py), restricted to the modelled fields. -/
def create_initial_state : FaberState :=
  { current_phase := ""
    completed_phases := []
    phase_results := []
    spec_validated := false
    evaluation_result := none
    retry_count := 0
    error := none
    error_phase := none }

/-! ## Graph nodes (src/python/faber/workflows/graph.py)

Each node awaits an LLM agent; the agent either returns a final message
string or raises an exception with a message.  That external outcome is
the `AgentOutcome` oracle input of each node.  A node returns a partial
state update which LangGraph merges by overwriting the returned keys;
the embedding applies the update to the full state directly (fields not
in the returned dict keep their old value, in particular a success
branch never clears `error` / `error_phase`). -/

inductive AgentOutcome where
  | ok (output : String)
  | exn (msg : String)
deriving DecidableEq, Repr

/-- `frame_node` from `create_faber_workflow`. -/
def frame_node (out : AgentOutcome) (s : FaberState) : FaberState :=
  match out with
  | .ok output =>
    { s with
      current_phase := "frame"
      completed_phases := s.completed_phases ++ ["frame"]
      phase_results := pydict_set s.phase_results "frame"
        { phase := "frame", status := "completed",
          output := [("summary", py_take output 500)] } }
  | .exn e =>
    { s with
      current_phase := "frame"
      error := some e
      error_phase := some "frame"
      phase_results := pydict_set s.phase_results "frame"
        { phase := "frame", status := "failed", error := some e } }

/-- `architect_node` from `create_faber_workflow`. -/
def architect_node (out : AgentOutcome) (s : FaberState) : FaberState :=
  match out with
  | .ok output =>
    { s with
      current_phase := "architect"
      completed_phases := s.completed_phases ++ ["architect"]
      phase_results := pydict_set s.phase_results "architect"
        { phase := "architect", status := "completed",
          output := [("summary", py_take output 500)] }
      spec_validated := true }
  | .exn e =>
    { s with
      current_phase := "architect"
      error := some e
      error_phase := some "architect"
      phase_results := pydict_set s.phase_results "architect"
        { phase := "architect", status := "failed", error := some e } }

/-- `build_node` from `create_faber_workflow`.  The Python source computes
`completed_phases` as `list(set(old + ["build"]))`; the hash-dependent
ordering of the Python set iteration is abstracted as the `setList`
parameter (any function returning the deduplicated elements in some
order; membership facts below are independent of it). -/
def build_node (setList : List String → List String) (out : AgentOutcome)
    (s : FaberState) : FaberState :=
  match out with
  | .ok output =>
    { s with
      current_phase := "build"
      completed_phases := setList (s.completed_phases ++ ["build"])
      phase_results := pydict_set s.phase_results "build"
        { phase := "build", status := "completed",
          output := [("summary", py_take output 500)] } }
  | .exn e =>
    { s with
      current_phase := "build"
      error := some e
      error_phase := some "build"
      phase_results := pydict_set s.phase_results "build"
        { phase := "build", status := "failed", error := some e } }

/-- Decision parsing in `evaluate_node`:
`"GO" if "GO" in output.upper() and "NO-GO" not in output.upper() else "NO_GO"`. -/
def parse_decision (output : String) : String :=
  if py_contains "GO" (py_upper output) &&
      !(py_contains "NO-GO" (py_upper output)) then "GO" else "NO_GO"

/-- `evaluate_node` from `create_faber_workflow`.  Note: the success
branch records a completed phase result and increments `retry_count` on
a NO_GO decision, but returns no `completed_phases` key. -/
def evaluate_node (out : AgentOutcome) (s : FaberState) : FaberState :=
  match out with
  | .ok output =>
    let decision := parse_decision output
    let new_retry_count :=
      if decision == "NO_GO" then s.retry_count + 1 else s.retry_count
    { s with
      current_phase := "evaluate"
      evaluation_result := some decision
      retry_count := new_retry_count
      phase_results := pydict_set s.phase_results "evaluate"
        { phase := "evaluate", status := "completed",
          output := [("decision", decision), ("summary", py_take output 500)] } }
  | .exn e =>
    { s with
      current_phase := "evaluate"
      evaluation_result := some "NO_GO"
      error := some e
      error_phase := some "evaluate"
      retry_count := s.retry_count + 1
      phase_results := pydict_set s.phase_results "evaluate"
        { phase := "evaluate", status := "failed", error := some e } }

/-- `release_node` from `create_faber_workflow`. -/
def release_node (out : AgentOutcome) (s : FaberState) : FaberState :=
  match out with
  | .ok output =>
    { s with
      current_phase := "release"
      completed_phases := s.completed_phases ++ ["release"]
      phase_results := pydict_set s.phase_results "release"
        { phase := "release", status := "completed",
          output := [("summary", py_take output 500)] } }
  | .exn e =>
    { s with
      current_phase := "release"
      error := some e
      error_phase := some "release"
      phase_results := pydict_set s.phase_results "release"
        { phase := "release", status := "failed", error := some e } }

/-- `should_retry_build` conditional edge (graph.py): GO goes to release,
otherwise retry build while `retry_count < max_retries`, else release. -/
def should_retry_build (max_retries : Nat) (s : FaberState) : String :=
  if s.evaluation_result == some "GO" then "release"
  else if s.retry_count < max_retries then "build"
  else "release"

/-- `check_for_errors` (graph.py): returns `end` when an error was
recorded in `frame` or `architect`.  In the source this function is
defined but never passed to `add_conditional_edges`, so it has no effect
on the wiring of the compiled graph. -/
def check_for_errors (s : FaberState) : String :=
  if s.error.isSome &&
      (s.error_phase == some "frame" || s.error_phase == some "architect") then
    "end"
  else "continue"

/-! ## Graph wiring and execution (create_faber_workflow, graph.py)

The compiled graph has the unconditional edges
frame → architect → build → evaluate, the conditional edge
`should_retry_build` at evaluate (to build or release), and
release → END.  No conditional edge guards frame or architect.
An execution is determined by an `AgentOracle` giving the outcome of
each agent invocation (build/evaluate indexed by loop iteration).
`run_faber_workflow_trace` returns the list of states observed after
each node execution, in order. -/

structure AgentOracle where
  frame_out : AgentOutcome
  architect_out : AgentOutcome
  build_out : Nat → AgentOutcome
  evaluate_out : Nat → AgentOutcome
  release_out : AgentOutcome

def faber_loop (setList : List String → List String) (g : AgentOracle)
    (max_retries : Nat) : Nat → Nat → FaberState → List FaberState
  | 0, _, _ => []
  | fuel + 1, i, s =>
    let sb := build_node setList (g.build_out i) s
    let se := evaluate_node (g.evaluate_out i) sb
    if should_retry_build max_retries se == "build" then
      sb :: se :: faber_loop setList g max_retries fuel (i + 1) se
    else
      [sb, se, release_node g.release_out se]

/-- The per-node state trace of one workflow run.  The retry loop
re-enters `build` only while `retry_count < max_retries` and every
re-entry follows an increment of `retry_count`, so fuel
`max_retries + 1` is never exhausted. -/
def run_faber_workflow_trace (setList : List String → List String)
    (g : AgentOracle) (max_retries : Nat) : List FaberState :=
  let s1 := frame_node g.frame_out create_initial_state
  let s2 := architect_node g.architect_out s1
  s1 :: s2 :: faber_loop setList g max_retries (max_retries + 1) 0 s2

/-- Final state of a workflow run. -/
def run_faber_workflow_final (setList : List String → List String)
    (g : AgentOracle) (max_retries : Nat) : FaberState :=
  (run_faber_workflow_trace setList g max_retries).getLastD
    create_initial_state

/-! ## Result conversion (src/python/faber/api/workflow.py) -/

structure WorkflowResult where
  status : String
  completed_phases : List String
  error : Option String
  error_phase : Option String
  retry_count : Nat
  evaluation_result : Option String
deriving DecidableEq, Repr

/-- `_state_to_result` (api/workflow.py): the terminal status is
`failed` exactly when `state.error` is set, else `completed`. -/
def state_to_result (s : FaberState) : WorkflowResult :=
  { status := if s.error.isSome then "failed" else "completed"
    completed_phases := s.completed_phases
    error := s.error
    error_phase := s.error_phase
    retry_count := s.retry_count
    evaluation_result := s.evaluation_result }

/-- The fixed FABER phase pipeline. -/
def faber_pipeline : List String :=
  ["frame", "architect", "build", "evaluate", "release"]

/-! ## String replacement (Python `str.replace`)

`replace_all pat rep s` is Python `s.replace(pat, rep)`: a single
left-to-right scan replacing non-overlapping occurrences; the result is
not re-scanned.  The `pat = []` case returns `s` unchanged (the
patterns used by the executors are `${name}` placeholders, never
empty). -/

def replace_all_fuel (pat rep : List Char) : Nat → List Char → List Char
  | 0, s => s
  | fuel + 1, s =>
    match s with
    | [] => []
    | c :: rest =>
      if !pat.isEmpty && pat.isPrefixOf (c :: rest) then
        rep ++ replace_all_fuel pat rep fuel ((c :: rest).drop pat.length)
      else
        c :: replace_all_fuel pat rep fuel rest

/-- Python `s.replace(pat, rep)`.  Every scan step consumes at least
one character of `s`, so fuel `s.length` is exact. -/
def replace_all (pat rep s : List Char) : List Char :=
  replace_all_fuel pat rep s.length s

/-- The `${name}` placeholder string used by the tool executors. -/
def placeholder (name : String) : List Char :=
  '$' :: '{' :: name.data ++ ['}']

/-! ## Bash tool executor (src/python/faber/definitions/tool_executor.py)

`BashToolExecutor._parse_command_to_argv` tokenizes the command
*template* with `shlex.split` (POSIX mode, whitespace splitting, no
comments) and then substitutes `${name}` placeholders inside each token
with `str(value)` directly (no quoting, no re-tokenization).  The
resulting argv is spawned with `asyncio.create_subprocess_exec(*argv)`
— a direct `exec` with `shell=False`, so the child's argument vector is
exactly the computed argv. -/

def sq_char : Char := Char.ofNat 39
def dq_char : Char := Char.ofNat 34
def bs_char : Char := Char.ofNat 92

/-- `shlex.whitespace`. -/
def shlex_whitespace (c : Char) : Bool :=
  c == ' ' || c == '\t' || c == '\r' || c == '\n'

/-- Lexer state of `shlex.read_token` under `posix=True`,
`whitespace_split=True`: between tokens, inside a word, inside single
or double quotes, or after a backslash (outside quotes / inside double
quotes). -/
inductive ShMode where
  | ws
  | word
  | insq
  | indq
  | escWord
  | escDq
deriving DecidableEq, Repr

/-- One pass of the `shlex` POSIX tokenizer over the whole input.
`cur` is the token being accumulated, `quoted` the per-token flag that
lets a quoted empty string become a token; `none` models the
`ValueError` raised on an unclosed quote or a trailing escape
character. -/
def shlex_core : List Char → ShMode → List Char → Bool →
    List (List Char) → Option (List (List Char))
  | [], .ws, _, _, acc => some acc
  | [], .word, cur, quoted, acc =>
    if cur ≠ [] || quoted then some (acc ++ [cur]) else some acc
  | [], .insq, _, _, _ => none
  | [], .indq, _, _, _ => none
  | [], .escWord, _, _, _ => none
  | [], .escDq, _, _, _ => none
  | c :: rest, .ws, cur, quoted, acc =>
    if shlex_whitespace c then
      shlex_core rest .ws cur quoted acc
    else if c == bs_char then
      shlex_core rest .escWord cur quoted acc
    else if c == sq_char then
      shlex_core rest .insq cur true acc
    else if c == dq_char then
      shlex_core rest .indq cur true acc
    else
      shlex_core rest .word (cur ++ [c]) quoted acc
  | c :: rest, .word, cur, quoted, acc =>
    if shlex_whitespace c then
      if cur ≠ [] || quoted then
        shlex_core rest .ws [] false (acc ++ [cur])
      else
        shlex_core rest .ws [] false acc
    else if c == bs_char then
      shlex_core rest .escWord cur quoted acc
    else if c == sq_char then
      shlex_core rest .insq cur true acc
    else if c == dq_char then
      shlex_core rest .indq cur true acc
    else
      shlex_core rest .word (cur ++ [c]) quoted acc
  | c :: rest, .insq, cur, quoted, acc =>
    if c == sq_char then
      shlex_core rest .word cur quoted acc
    else
      shlex_core rest .insq (cur ++ [c]) quoted acc
  | c :: rest, .indq, cur, quoted, acc =>
    if c == dq_char then
      shlex_core rest .word cur quoted acc
    else if c == bs_char then
      shlex_core rest .escDq cur quoted acc
    else
      shlex_core rest .indq (cur ++ [c]) quoted acc
  | c :: rest, .escWord, cur, quoted, acc =>
    shlex_core rest .word (cur ++ [c]) quoted acc
  | c :: rest, .escDq, cur, quoted, acc =>
    if c == dq_char || c == bs_char then
      shlex_core rest .indq (cur ++ [c]) quoted acc
    else
      shlex_core rest .indq (cur ++ [bs_char, c]) quoted acc

/-- `shlex.split(template)` as called by `_parse_command_to_argv`. -/
def shlex_split (s : String) : Option (List (List Char)) :=
  shlex_core s.data .ws [] false []

/-- Per-token substitution loop of `_parse_command_to_argv`: iterate
the parameters in order; when the token still contains `${key}`,
replace every occurrence with `str(value)` (values are already strings
in this model). -/
def subst_token_bash (params : List (String × String)) (tok : List Char) :
    List Char :=
  params.foldl
    (fun acc kv =>
      if decide ((placeholder kv.1) <:+: acc) then
        replace_all (placeholder kv.1) kv.2.data acc
      else acc)
    tok

/-- `BashToolExecutor._parse_command_to_argv`: `none` models the
`ValueError` / `ToolExecutionError` paths (invalid template syntax or
empty template). -/
def parse_command_to_argv (template : String)
    (params : List (String × String)) : Option (List (List Char)) :=
  match shlex_split template with
  | none => none
  | some [] => none
  | some toks => some (toks.map (subst_token_bash params))

/-- The argument vector the child process receives.
`BashToolExecutor.execute` spawns `create_subprocess_exec(*argv)` with
no shell in the call chain, so the child's argv is the computed list
itself. -/
def bash_child_argv (template : String) (params : List (String × String)) :
    Option (List (List Char)) :=
  parse_command_to_argv template params

/-! ## Base-class parameter substitution (ToolExecutor._substitute_parameters)

Used by the HTTP executor for URL, header and body templates.  Each
`${key}` is replaced with `shlex.quote(str(value))` — the shell-quoted
form, not the literal value. -/

/-- The character class of `shlex._find_unsafe` under `re.ASCII`:
ASCII letters, digits, and the characters `_ @ % + = : , . slash -`
are safe, everything else unsafe. -/
def shlex_safe_char (c : Char) : Bool :=
  c.isAlpha || c.isDigit || c == '_' || c == '@' || c == '%' || c == '+' ||
    c == '=' || c == ':' || c == ',' || c == '.' || c == '/' || c == '-'

/-- `shlex.quote(s)`: empty becomes two single quotes, all-safe strings
pass through, anything else is wrapped in single quotes with every
embedded single quote rewritten to quote-doublequote-quote-doublequote-quote. -/
def shlex_quote (s : List Char) : List Char :=
  if s.isEmpty then [sq_char, sq_char]
  else if s.all shlex_safe_char then s
  else sq_char :: replace_all [sq_char]
    [sq_char, dq_char, sq_char, dq_char, sq_char] s ++ [sq_char]

/-- `ToolExecutor._substitute_parameters`: replace each `${key}` in the
template with the shlex-quoted string value, iterating parameters in
order. -/
def substitute_parameters (template : String)
    (params : List (String × String)) : List Char :=
  params.foldl
    (fun acc kv => replace_all (placeholder kv.1) (shlex_quote kv.2.data) acc)
    template.data

/-- URL actually passed to the SSRF validator and the request call in
`HTTPToolExecutor.execute` / `_execute_http_request`. -/
def http_request_url (url_template : String)
    (params : List (String × String)) : List Char :=
  substitute_parameters url_template params

/-- Headers passed to the request in `_execute_http_request`. -/
def http_request_headers (headers : List (String × String))
    (params : List (String × String)) : List (String × List Char) :=
  headers.map (fun kv => (kv.1, substitute_parameters kv.2 params))

/-! ## Cost tracker (src/sdk/py/faber/cost/tracker.py)

Floats are embedded as exact rationals; `timestamp` and `metadata` of a
usage event are elided (external clock / free-form data). -/

structure ModelPricing where
  input_price : ℚ
  output_price : ℚ
deriving DecidableEq, Repr

/-- `ModelPricing.calculate_cost`. -/
def calculate_cost (p : ModelPricing) (input_tokens output_tokens : Nat) : ℚ :=
  (input_tokens / 1000000 : ℚ) * p.input_price +
    (output_tokens / 1000000 : ℚ) * p.output_price

structure CostConfig where
  budget_limit_usd : ℚ := 10
  warning_threshold : ℚ := 8 / 10
  require_approval_at : ℚ := 9 / 10
  pricing : List (String × ModelPricing) := []
deriving DecidableEq, Repr

structure UsageEvent where
  model : String
  input_tokens : Nat
  output_tokens : Nat
  cost_usd : ℚ
  phase : Option String := none
deriving DecidableEq, Repr

structure CostTracker where
  config : CostConfig
  events : List UsageEvent := []
  total_cost_usd : ℚ := 0
  total_tokens : Nat := 0
  budget_approved : Bool := false
deriving DecidableEq, Repr

/-- Outcome of `CostTracker._check_budget`: normal return, or one of
the two exceptions. -/
inductive BudgetCheck where
  | ok
  | approvalRequired
  | exceeded
deriving DecidableEq, Repr

/-- `CostTracker._check_budget`. -/
def check_budget (t : CostTracker) : BudgetCheck :=
  if t.config.budget_limit_usd ≤ 0 then .ok
  else
    let percent_used := t.total_cost_usd / t.config.budget_limit_usd
    if percent_used ≥ 1 then .exceeded
    else if percent_used ≥ t.config.require_approval_at ∧
        ¬ t.budget_approved then .approvalRequired
    else .ok

/-- `CostTracker.add_usage`: compute the event cost (configured pricing
or the `$5 / 1M tokens` default), append the event and update the
totals, then check the budget.  The state mutation happens before the
check, exactly as in the source (the event is recorded even when an
exception is raised); the returned `BudgetCheck` is `ok` when the
method returns the event normally. -/
def add_usage (t : CostTracker) (model : String)
    (input_tokens output_tokens : Nat) (phase : Option String := none) :
    CostTracker × BudgetCheck × UsageEvent :=
  let cost :=
    match pydict_get t.config.pricing model with
    | some p => calculate_cost p input_tokens output_tokens
    | none => ((input_tokens + output_tokens : Nat) / 1000000 : ℚ) * 5
  let event : UsageEvent :=
    { model := model, input_tokens := input_tokens,
      output_tokens := output_tokens, cost_usd := cost, phase := phase }
  let t2 : CostTracker :=
    { t with
      events := t.events ++ [event]
      total_cost_usd := t.total_cost_usd + cost
      total_tokens := t.total_tokens + input_tokens + output_tokens }
  (t2, check_budget t2, event)

/-- `CostTracker.approve_budget`. -/
def approve_budget (t : CostTracker) : CostTracker :=
  { t with budget_approved := true }

/-! ## Approval queue (src/sdk/py/faber/approval/queue.py) -/

structure ApprovalRequest where
  id : String
  workflow_id : String
  phase : String
  question : String
  options : List String := ["approve", "reject"]
  timeout_minutes : Nat := 60
deriving DecidableEq, Repr

structure ApprovalResponse where
  request_id : String
  decision : String
  comment : Option String := none
  responder : Option String := none
  channel : Option String := none
deriving DecidableEq, Repr

/-- The mutable maps of `ApprovalQueue`: `_pending_requests` and
`_responses` (both Python dicts keyed by request id). -/
structure ApprovalQueueState where
  pending_requests : List (String × ApprovalRequest) := []
  responses : List (String × ApprovalResponse) := []
deriving DecidableEq, Repr

/-- `ApprovalQueue.submit_response`: accepted only while the request is
pending; the response dict entry for the request id is *assigned*
(overwriting any earlier entry). -/
def submit_response (q : ApprovalQueueState) (resp : ApprovalResponse) :
    ApprovalQueueState × Bool :=
  if (pydict_get q.pending_requests resp.request_id).isSome then
    ({ q with responses := pydict_set q.responses resp.request_id resp }, true)
  else
    (q, false)

/-- The synthesized response `_wait_for_response` returns on timeout. -/
def timeout_response (rid : String) : ApprovalResponse :=
  { request_id := rid, decision := "timeout", comment := some "Request timed out" }

/-- One iteration structure of `ApprovalQueue._wait_for_response` for a
request with id `rid`: check the submitted-responses dict, then the
elapsed-time timeout, then poll each response-channel adapter, then
sleep one second and repeat.  `responses` holds the responses submitted
before the wait (mid-wait submissions are not needed by any claim);
`poll k` is the first adapter response produced at iteration `k`;
elapsed time after `k` one-second sleeps is modelled as `k` seconds.
Fuel `timeout_seconds + 1` is never exhausted because the timeout
branch fires at the latest when `k = timeout_seconds`. -/
def wait_loop (timeout_seconds : Nat)
    (responses : List (String × ApprovalResponse)) (rid : String)
    (poll : Nat → Option ApprovalResponse) :
    Nat → Nat → ApprovalResponse
  | 0, _ => timeout_response rid
  | fuel + 1, k =>
    match pydict_get responses rid with
    | some r => r
    | none =>
      if k ≥ timeout_seconds then timeout_response rid
      else
        match poll k with
        | some r => r
        | none => wait_loop timeout_seconds responses rid poll fuel (k + 1)

/-- `ApprovalQueue._wait_for_response` (`timeout_seconds =
timeout_minutes * 60`). -/
def wait_for_response (timeout_minutes : Nat)
    (responses : List (String × ApprovalResponse)) (rid : String)
    (poll : Nat → Option ApprovalResponse) : ApprovalResponse :=
  wait_loop (timeout_minutes * 60) responses rid poll
    (timeout_minutes * 60 + 1) 0

/-! ## HTTP SSRF validation (HTTPToolExecutor, tool_executor.py)

IP addresses are embedded as their integer value (IPv4 below `2^32`,
IPv6 below `2^128`); the classification predicates transcribe the
network lists of the Python `ipaddress` module, which the validator
calls.  The stdlib URL/IP *parsing* (`urllib.parse.urlparse`,
`ipaddress.ip_address`) is abstracted: the validator model receives
the parsed scheme and the host already classified as IP literal or
domain name, and DNS resolution (`socket.getaddrinfo`) is an oracle
returning `none` for a resolution failure (`gaierror`). -/

def mk_ipv4 (a b c d : Nat) : Nat :=
  ((a * 256 + b) * 256 + c) * 256 + d

/-- `ip` lies in the network `base` with prefix length `pfx` (IPv4). -/
def in_net4 (ip base pfx : Nat) : Bool :=
  ip / 2 ^ (32 - pfx) == base / 2 ^ (32 - pfx)

def mk_ipv6 (g0 g1 g2 g3 g4 g5 g6 g7 : Nat) : Nat :=
  ((((((g0 * 65536 + g1) * 65536 + g2) * 65536 + g3) * 65536 + g4) *
    65536 + g5) * 65536 + g6) * 65536 + g7

/-- `ip` lies in the network `base` with prefix length `pfx` (IPv6). -/
def in_net6 (ip base pfx : Nat) : Bool :=
  ip / 2 ^ (128 - pfx) == base / 2 ^ (128 - pfx)

/-- `IPv4Address.is_private` (`ipaddress._private_networks`). -/
def ipv4_is_private (ip : Nat) : Bool :=
  in_net4 ip (mk_ipv4 0 0 0 0) 8 ||
  in_net4 ip (mk_ipv4 10 0 0 0) 8 ||
  in_net4 ip (mk_ipv4 127 0 0 0) 8 ||
  in_net4 ip (mk_ipv4 169 254 0 0) 16 ||
  in_net4 ip (mk_ipv4 172 16 0 0) 12 ||
  in_net4 ip (mk_ipv4 192 0 0 0) 29 ||
  in_net4 ip (mk_ipv4 192 0 0 170) 31 ||
  in_net4 ip (mk_ipv4 192 0 2 0) 24 ||
  in_net4 ip (mk_ipv4 192 168 0 0) 16 ||
  in_net4 ip (mk_ipv4 198 18 0 0) 15 ||
  in_net4 ip (mk_ipv4 198 51 100 0) 24 ||
  in_net4 ip (mk_ipv4 203 0 113 0) 24 ||
  in_net4 ip (mk_ipv4 240 0 0 0) 4 ||
  in_net4 ip (mk_ipv4 255 255 255 255) 32

/-- `IPv4Address.is_loopback` (`127.0.0.0/8`). -/
def ipv4_is_loopback (ip : Nat) : Bool :=
  in_net4 ip (mk_ipv4 127 0 0 0) 8

/-- `IPv4Address.is_link_local` (`169.254.0.0/16`). -/
def ipv4_is_link_local (ip : Nat) : Bool :=
  in_net4 ip (mk_ipv4 169 254 0 0) 16

/-- `IPv4Address.is_multicast` (`224.0.0.0/4`). -/
def ipv4_is_multicast (ip : Nat) : Bool :=
  in_net4 ip (mk_ipv4 224 0 0 0) 4

/-- `IPv4Address.is_reserved` (`240.0.0.0/4`). -/
def ipv4_is_reserved (ip : Nat) : Bool :=
  in_net4 ip (mk_ipv4 240 0 0 0) 4

/-- `IPv4Address.is_unspecified` (`0.0.0.0`). -/
def ipv4_is_unspecified (ip : Nat) : Bool :=
  ip == 0

/-- `IPv6Address.is_private` (`ipaddress._private_networks` for IPv6). -/
def ipv6_is_private (ip : Nat) : Bool :=
  ip == 1 ||
  ip == 0 ||
  in_net6 ip (mk_ipv6 0 0 0 0 0 0xffff 0 0) 96 ||
  in_net6 ip (mk_ipv6 0x100 0 0 0 0 0 0 0) 64 ||
  in_net6 ip (mk_ipv6 0x2001 0 0 0 0 0 0 0) 23 ||
  in_net6 ip (mk_ipv6 0x2001 2 0 0 0 0 0 0) 48 ||
  in_net6 ip (mk_ipv6 0x2001 0xdb8 0 0 0 0 0 0) 32 ||
  in_net6 ip (mk_ipv6 0x2001 0x10 0 0 0 0 0 0) 28 ||
  in_net6 ip (mk_ipv6 0xfc00 0 0 0 0 0 0 0) 7 ||
  in_net6 ip (mk_ipv6 0xfe80 0 0 0 0 0 0 0) 10

/-- `IPv6Address.is_loopback` (`::1`). -/
def ipv6_is_loopback (ip : Nat) : Bool :=
  ip == 1

/-- `IPv6Address.is_link_local` (`fe80::/10`). -/
def ipv6_is_link_local (ip : Nat) : Bool :=
  in_net6 ip (mk_ipv6 0xfe80 0 0 0 0 0 0 0) 10

/-- `IPv6Address.is_multicast` (`ff00::/8`). -/
def ipv6_is_multicast (ip : Nat) : Bool :=
  in_net6 ip (mk_ipv6 0xff00 0 0 0 0 0 0 0) 8

/-- `IPv6Address.is_reserved` (`ipaddress._reserved_networks`). -/
def ipv6_is_reserved (ip : Nat) : Bool :=
  in_net6 ip (mk_ipv6 0 0 0 0 0 0 0 0) 8 ||
  in_net6 ip (mk_ipv6 0x100 0 0 0 0 0 0 0) 8 ||
  in_net6 ip (mk_ipv6 0x200 0 0 0 0 0 0 0) 7 ||
  in_net6 ip (mk_ipv6 0x400 0 0 0 0 0 0 0) 6 ||
  in_net6 ip (mk_ipv6 0x800 0 0 0 0 0 0 0) 5 ||
  in_net6 ip (mk_ipv6 0x1000 0 0 0 0 0 0 0) 4 ||
  in_net6 ip (mk_ipv6 0x4000 0 0 0 0 0 0 0) 3 ||
  in_net6 ip (mk_ipv6 0x6000 0 0 0 0 0 0 0) 3 ||
  in_net6 ip (mk_ipv6 0x8000 0 0 0 0 0 0 0) 3 ||
  in_net6 ip (mk_ipv6 0xa000 0 0 0 0 0 0 0) 3 ||
  in_net6 ip (mk_ipv6 0xc000 0 0 0 0 0 0 0) 3 ||
  in_net6 ip (mk_ipv6 0xe000 0 0 0 0 0 0 0) 4 ||
  in_net6 ip (mk_ipv6 0xf000 0 0 0 0 0 0 0) 5 ||
  in_net6 ip (mk_ipv6 0xf800 0 0 0 0 0 0 0) 6 ||
  in_net6 ip (mk_ipv6 0xfe00 0 0 0 0 0 0 0) 9

/-- `IPv6Address.is_unspecified` (`::`). -/
def ipv6_is_unspecified (ip : Nat) : Bool :=
  ip == 0

/-- `IPv6Address.ipv4_mapped` (`::ffff:a.b.c.d`). -/
def ipv6_ipv4_mapped (ip : Nat) : Option Nat :=
  if ip / 2 ^ 32 == 0xffff then some (ip % 2 ^ 32) else none

/-- `IPv6Address.sixtofour` (`2002::/16`, IPv4 in bits 112..80). -/
def ipv6_sixtofour (ip : Nat) : Option Nat :=
  if ip / 2 ^ 112 == 0x2002 then some (ip / 2 ^ 80 % 2 ^ 32) else none

/-- `IPv6Address.teredo` (`2001::/32`; server = bits 95..64, client =
the bitwise complement of the low 32 bits). -/
def ipv6_teredo (ip : Nat) : Option (Nat × Nat) :=
  if ip / 2 ^ 96 == 0x20010000 then
    some (ip / 2 ^ 64 % 2 ^ 32, 2 ^ 32 - 1 - ip % 2 ^ 32)
  else none

inductive IPAddr where
  | v4 (val : Nat)
  | v6 (val : Nat)
deriving DecidableEq, Repr

/-- `_validate_ip_address` restricted to an IPv4 address: the chain of
category checks, first match raises. -/
def validate_ip4 (ip : Nat) : Except String Unit :=
  if ipv4_is_private ip then .error "private IP address blocked"
  else if ipv4_is_loopback ip then .error "loopback address blocked"
  else if ipv4_is_link_local ip then .error "link-local address blocked"
  else if ipv4_is_multicast ip then .error "multicast address blocked"
  else if ipv4_is_reserved ip then .error "reserved address blocked"
  else if ipv4_is_unspecified ip then .error "unspecified address blocked"
  else .ok ()

/-- The IPv6-specific tail of `_validate_ip_address`: re-validate the
IPv4 addresses embedded in IPv4-mapped, 6to4 and Teredo forms (each
recursive call propagates its exception). -/
def validate_ip6_embedded (ip : Nat) : Except String Unit := do
  match ipv6_ipv4_mapped ip with
  | some m => validate_ip4 m
  | none => pure ()
  match ipv6_sixtofour ip with
  | some s => validate_ip4 s
  | none => pure ()
  match ipv6_teredo ip with
  | some p => do
    validate_ip4 p.1
    validate_ip4 p.2
  | none => pure ()

/-- `_validate_ip_address` on an IPv6 address: the same category chain
as for IPv4, then the embedded-IPv4 re-validation. -/
def validate_ip6 (ip : Nat) : Except String Unit :=
  if ipv6_is_private ip then .error "private IP address blocked"
  else if ipv6_is_loopback ip then .error "loopback address blocked"
  else if ipv6_is_link_local ip then .error "link-local address blocked"
  else if ipv6_is_multicast ip then .error "multicast address blocked"
  else if ipv6_is_reserved ip then .error "reserved address blocked"
  else if ipv6_is_unspecified ip then .error "unspecified address blocked"
  else validate_ip6_embedded ip

/-- `HTTPToolExecutor._validate_ip_address`. -/
def validate_ip_address : IPAddr → Except String Unit
  | .v4 ip => validate_ip4 ip
  | .v6 ip => validate_ip6 ip

/-- The `for info in addr_info` loop: validate every resolved address,
raising at the first blocked one. -/
def validate_ip_list : List IPAddr → Except String Unit
  | [] => .ok ()
  | ip :: rest => do
    validate_ip_address ip
    validate_ip_list rest

/-- Host part of a parsed URL: an IP literal
(`ipaddress.ip_address(hostname)` succeeded) or a domain name. -/
inductive UrlHost where
  | ip (a : IPAddr)
  | name (h : String)
deriving DecidableEq, Repr

structure ParsedUrl where
  scheme : String
  host : Option UrlHost
deriving DecidableEq, Repr

/-- Python `s.lower()` restricted to ASCII. -/
def py_lower (s : String) : String :=
  ⟨s.data.map Char.toLower⟩

/-- The `blocked_hosts` set in `_validate_url_ssrf`. -/
def blocked_hosts : List String :=
  ["localhost", "localhost.localdomain", "ip6-localhost", "ip6-loopback"]

/-- The `blocked_suffixes` tuple in `_validate_url_ssrf`. -/
def blocked_suffixes : List String :=
  [".local", ".localhost", ".internal", ".lan", ".home", ".corp", ".intranet"]

/-- `HTTPToolExecutor._validate_url_ssrf`: scheme check, IP-literal
check, internal-hostname and blocked-suffix checks, then DNS
resolution with validation of every resolved address. -/
def validate_url_ssrf (resolve : String → Option (List IPAddr))
    (u : ParsedUrl) : Except String Unit :=
  if ¬ (u.scheme == "http" || u.scheme == "https") then
    .error "Invalid URL scheme"
  else
    match u.host with
    | none => .error "URL must have a hostname"
    | some (.ip a) => validate_ip_address a
    | some (.name h) =>
      let hostname_lower := py_lower h
      if blocked_hosts.contains hostname_lower then
        .error "Access to internal hostname blocked"
      else if blocked_suffixes.any
          (fun suf => List.isSuffixOf suf.data hostname_lower.data) then
        .error "Access to internal domain blocked"
      else
        match resolve h with
        | none => .error "Failed to resolve hostname"
        | some infos =>
          if infos.isEmpty then .error "Could not resolve hostname"
          else validate_ip_list infos

/-- `HTTPToolExecutor.execute` awaits `_validate_url_ssrf(url)` and
calls `_execute_http_request` only after it returns: a request is
dispatched exactly when validation succeeds. -/
def http_request_sent (resolve : String → Option (List IPAddr))
    (u : ParsedUrl) : Bool :=
  match validate_url_ssrf resolve u with
  | .ok _ => true
  | .error _ => false

/-! ## Concrete agent oracles used by witnesses and counterexamples -/

/-- Every phase succeeds; evaluation announces GO. -/
def happy_oracle : AgentOracle :=
  { frame_out := .ok "framed"
    architect_out := .ok "spec done"
    build_out := fun _ => .ok "built"
    evaluate_out := fun _ => .ok "Decision: GO"
    release_out := .ok "released" }

/-- Every phase succeeds; every evaluation announces NO-GO. -/
def nogo_oracle : AgentOracle :=
  { frame_out := .ok "framed"
    architect_out := .ok "spec done"
    build_out := fun _ => .ok "built"
    evaluate_out := fun _ => .ok "Decision: NO-GO"
    release_out := .ok "released" }

/-- The frame agent raises; every later phase would succeed. -/
def frame_fail_oracle : AgentOracle :=
  { frame_out := .exn "boom"
    architect_out := .ok "spec done"
    build_out := fun _ => .ok "built"
    evaluate_out := fun _ => .ok "Decision: GO"
    release_out := .ok "released" }

/-! ## Engine helper lemmas -/

lemma frame_node_retry_count (o : AgentOutcome) (s : FaberState) :
    (frame_node o s).retry_count = s.retry_count := by
  cases o <;> rfl

lemma architect_node_retry_count (o : AgentOutcome) (s : FaberState) :
    (architect_node o s).retry_count = s.retry_count := by
  cases o <;> rfl

lemma build_node_retry_count (setList : List String → List String)
    (o : AgentOutcome) (s : FaberState) :
    (build_node setList o s).retry_count = s.retry_count := by
  cases o <;> rfl

lemma release_node_retry_count (o : AgentOutcome) (s : FaberState) :
    (release_node o s).retry_count = s.retry_count := by
  cases o <;> rfl

lemma evaluate_node_retry_le (o : AgentOutcome) (s : FaberState) :
    (evaluate_node o s).retry_count ≤ s.retry_count + 1 := by
  cases o
  · simp only [evaluate_node]
    split <;> omega
  · simp [evaluate_node]

lemma should_retry_build_eq_build {m : Nat} {s : FaberState}
    (h : should_retry_build m s = "build") : s.retry_count < m := by
  unfold should_retry_build at h
  split at h
  · exact absurd h (by decide)
  · split at h
    · assumption
    · exact absurd h (by decide)

lemma faber_loop_retry_bound (setList : List String → List String)
    (g : AgentOracle) (m : Nat) :
    ∀ fuel i s, s.retry_count = 0 ∨ s.retry_count < m →
      ∀ t ∈ faber_loop setList g m fuel i s, t.retry_count ≤ max m 1 := by
  intro fuel
  induction fuel with
  | zero => intro i s _ t ht; simp [faber_loop] at ht
  | succ fuel ih =>
    intro i s hs t ht
    simp only [faber_loop] at ht
    have hb : (build_node setList (g.build_out i) s).retry_count =
        s.retry_count := build_node_retry_count ..
    have he : (evaluate_node (g.evaluate_out i)
        (build_node setList (g.build_out i) s)).retry_count ≤
        s.retry_count + 1 := by
      calc _ ≤ (build_node setList (g.build_out i) s).retry_count + 1 :=
            evaluate_node_retry_le ..
        _ = s.retry_count + 1 := by rw [hb]
    have hsb : s.retry_count ≤ max m 1 := by
      rcases hs with h0 | hlt
      · omega
      · have := le_max_left m 1; omega
    have hse : (evaluate_node (g.evaluate_out i)
        (build_node setList (g.build_out i) s)).retry_count ≤ max m 1 := by
      rcases hs with h0 | hlt
      · have := le_max_right m 1; omega
      · have := le_max_left m 1; omega
    split at ht
    · simp only [List.mem_cons] at ht
      rcases ht with rfl | rfl | ht
      · omega
      · exact hse
      · refine ih (i + 1) _ ?_ t ht
        right
        rename_i hedge
        exact should_retry_build_eq_build (by simpa using hedge)
    · simp only [List.mem_cons, List.not_mem_nil, or_false] at ht
      rcases ht with rfl | rfl | rfl
      · omega
      · exact hse
      · rw [release_node_retry_count]; exact hse

/-! ## Claim theorems for the workflow engine -/

/-- C6 (confirmed): after `evaluate`, the conditional edge
`should_retry_build` selects `release` on a GO evaluation, selects
`build` when the evaluation is not GO and `retry_count < max_retries`,
and selects `release` otherwise; with `max_retries = 0` it never
selects `build`, so a NO_GO cannot re-run `build` (the whole run
visits exactly the five phase nodes once). -/
theorem c6_evaluate_conditional_edge (m : Nat) (s : FaberState) :
    (s.evaluation_result = some "GO" → should_retry_build m s = "release") ∧
    (s.evaluation_result ≠ some "GO" → s.retry_count < m →
      should_retry_build m s = "build") ∧
    (s.evaluation_result ≠ some "GO" → ¬ s.retry_count < m →
      should_retry_build m s = "release") ∧
    should_retry_build 0 s = "release" ∧
    (∀ setList g, (run_faber_workflow_trace setList g 0).length = 5) := by
  refine ⟨?_, ?_, ?_, ?_, ?_⟩
  · intro h
    simp [should_retry_build, h]
  · intro h hlt
    have hb : (s.evaluation_result == some "GO") = false := by
      simpa using h
    simp [should_retry_build, hb, hlt]
  · intro h hge
    have hb : (s.evaluation_result == some "GO") = false := by
      simpa using h
    simp [should_retry_build, hb, hge]
  · unfold should_retry_build
    split
    · rfl
    · simp
  · intro setList g
    have hrel : ∀ s2 : FaberState, should_retry_build 0 s2 = "release" := by
      intro s2
      unfold should_retry_build
      split
      · rfl
      · simp
    simp [run_faber_workflow_trace, faber_loop, hrel]

/-- C6 witness: on a concrete post-evaluate state with a GO result the
edge selects release. -/
theorem c6_witness :
    should_retry_build 1
      { current_phase := "evaluate", completed_phases := [],
        phase_results := [], spec_validated := true,
        evaluation_result := some "GO", retry_count := 0,
        error := none, error_phase := none } = "release" :=
  (c6_evaluate_conditional_edge 1 _).1 rfl

/-- C5 (amended): at every observable moment of a workflow run,
`retry_count ≤ max(max_retries, 1)`; in particular the original bound
`retry_count ≤ max_retries` holds whenever `max_retries ≥ 1`, and the
engine exits the retry loop whenever `retry_count ≥ max_retries`,
regardless of `evaluation_result`. -/
theorem c5_retry_count_bounded (setList : List String → List String)
    (g : AgentOracle) (m : Nat) :
    (∀ s ∈ run_faber_workflow_trace setList g m, s.retry_count ≤ max m 1) ∧
    (1 ≤ m → ∀ s ∈ run_faber_workflow_trace setList g m, s.retry_count ≤ m) ∧
    (∀ s : FaberState, m ≤ s.retry_count → should_retry_build m s ≠ "build") := by
  have hmain : ∀ s ∈ run_faber_workflow_trace setList g m,
      s.retry_count ≤ max m 1 := by
    intro s hs
    simp only [run_faber_workflow_trace, List.mem_cons] at hs
    have h1 : (frame_node g.frame_out create_initial_state).retry_count = 0 := by
      rw [frame_node_retry_count]; rfl
    have h2 : (architect_node g.architect_out
        (frame_node g.frame_out create_initial_state)).retry_count = 0 := by
      rw [architect_node_retry_count, h1]
    rcases hs with rfl | rfl | hs
    · omega
    · omega
    · exact faber_loop_retry_bound setList g m (m + 1) 0 _ (Or.inl h2) s hs
  refine ⟨hmain, ?_, ?_⟩
  · intro hm s hs
    have := hmain s hs
    omega
  · intro s hge h
    have := should_retry_build_eq_build h
    omega

/-- C5 witness: the bound applied to the final state of a concrete
zero-retry run. -/
theorem c5_witness :
    (run_faber_workflow_final List.eraseDups nogo_oracle 0).retry_count ≤
      max 0 1 :=
  (c5_retry_count_bounded List.eraseDups nogo_oracle 0).1 _ (by decide)

/-- C5 counterexample: with `max_retries = 0` and a NO-GO evaluation,
the state right after the evaluate node has `retry_count = 1 > 0 =
max_retries`, refuting `retry_count ≤ max_retries` at all observable
moments (the trace of per-node retry counts is `[0, 0, 0, 1, 1]`). -/
theorem c5_counterexample :
    ((run_faber_workflow_trace List.eraseDups nogo_oracle 0).map
      (fun s => s.retry_count) = [0, 0, 0, 1, 1]) ∧
    ¬ (∀ s ∈ run_faber_workflow_trace List.eraseDups nogo_oracle 0,
        s.retry_count ≤ 0) := by
  constructor
  · rfl
  · intro h
    have := h (run_faber_workflow_final List.eraseDups nogo_oracle 0)
      (by decide)
    revert this
    decide

/-- C1 (code bug): `check_for_errors` classifies the post-frame state of
a failed frame as `end`, but `create_faber_workflow` never wires it into
the graph, so after a frame error the run still executes architect,
build, evaluate and release (architect appears in `completed_phases`
and the release phase result is recorded as completed); the terminal
status is `failed` (the error survives in the state), but subsequent
phases are executed, contradicting the claimed early termination. -/
theorem c1_frame_error_pipeline_continues :
    check_for_errors (frame_node frame_fail_oracle.frame_out
      create_initial_state) = "end" ∧
    (state_to_result (run_faber_workflow_final List.eraseDups
      frame_fail_oracle 3)).status = "failed" ∧
    "architect" ∈ (run_faber_workflow_final List.eraseDups
      frame_fail_oracle 3).completed_phases ∧
    "release" ∈ (run_faber_workflow_final List.eraseDups
      frame_fail_oracle 3).completed_phases ∧
    pydict_get (run_faber_workflow_final List.eraseDups
      frame_fail_oracle 3).phase_results "release" =
      some { phase := "release", status := "completed",
             output := [("summary", "released")] } := by
  refine ⟨rfl, rfl, by decide, by decide, rfl⟩

/-- C4 (code bug): a run that terminates with status `completed` (the
all-GO happy path) does not have `completed_phases` equal to the
pipeline: `evaluate_node` never appends to `completed_phases`, so
`evaluate` is missing even though its phase result is recorded as
completed (shown here under the first-occurrence set ordering
`List.eraseDups`; the missing `evaluate` entry is independent of the
set iteration order). -/
theorem c4_completed_run_missing_evaluate :
    (state_to_result (run_faber_workflow_final List.eraseDups
      happy_oracle 3)).status = "completed" ∧
    (run_faber_workflow_final List.eraseDups happy_oracle 3).completed_phases =
      ["frame", "architect", "build", "release"] ∧
    (run_faber_workflow_final List.eraseDups happy_oracle 3).completed_phases ≠
      faber_pipeline ∧
    "evaluate" ∉ (run_faber_workflow_final List.eraseDups
      happy_oracle 3).completed_phases ∧
    pydict_get (run_faber_workflow_final List.eraseDups
      happy_oracle 3).phase_results "evaluate" =
      some { phase := "evaluate", status := "completed",
             output := [("decision", "GO"), ("summary", "Decision: GO")] } := by
  refine ⟨rfl, rfl, by decide, by decide, rfl⟩

/-! ## Replacement lemmas -/

lemma replace_all_fuel_nil (pat rep : List Char) (fuel : Nat) :
    replace_all_fuel pat rep fuel [] = [] := by
  cases fuel <;> rfl

lemma replace_all_fuel_not_infix (pat rep : List Char) :
    ∀ fuel s, ¬ pat <:+: s → replace_all_fuel pat rep fuel s = s := by
  intro fuel
  induction fuel with
  | zero => intro s _; rfl
  | succ fuel ih =>
    intro s hs
    match s with
    | [] => rfl
    | c :: rest =>
      rw [replace_all_fuel]
      have hcond : (!pat.isEmpty && pat.isPrefixOf (c :: rest)) = false := by
        by_contra hne
        have h1 : pat.isPrefixOf (c :: rest) = true := by
          rcases Bool.and_eq_true _ _ |>.mp (Bool.of_not_eq_false hne) with ⟨_, h⟩
          exact h
        exact hs ((List.isPrefixOf_iff_prefix.mp h1).isInfix)
      rw [hcond]
      simp only [Bool.false_eq_true, if_false]
      have : ¬ pat <:+: rest := fun h =>
        hs (List.infix_cons_iff.mpr (Or.inr h))
      rw [ih rest this]

/-- Python `s.replace(pat, rep)` leaves `s` unchanged when `pat` does
not occur in `s`. -/
lemma replace_all_not_infix (pat rep s : List Char) (h : ¬ pat <:+: s) :
    replace_all pat rep s = s :=
  replace_all_fuel_not_infix pat rep s.length s h

/-- Python `pat.replace(pat, rep) = rep` for nonempty `pat`. -/
lemma replace_all_self (pat rep : List Char) (h : pat ≠ []) :
    replace_all pat rep pat = rep := by
  match pat, h with
  | c :: rest, _ =>
    unfold replace_all
    rw [List.length_cons, replace_all_fuel]
    have hcond : (!(c :: rest).isEmpty &&
        (c :: rest).isPrefixOf (c :: rest)) = true := by
      simp [List.isPrefixOf_iff_prefix]
    rw [hcond]
    simp only [if_true]
    rw [List.drop_length, replace_all_fuel_nil, List.append_nil]

lemma placeholder_ne_nil (name : String) : placeholder name ≠ [] := by
  simp [placeholder]

lemma subst_token_bash_id (ps : List (String × String)) (t : List Char)
    (h : ∀ p ∈ ps, ¬ (placeholder p.1 <:+: t)) :
    subst_token_bash ps t = t := by
  induction ps with
  | nil => rfl
  | cons p rest ih =>
    unfold subst_token_bash at *
    rw [List.foldl_cons]
    have hd : (decide ((placeholder p.1) <:+: t)) = false := by
      simpa using h p (List.mem_cons_self ..)
    rw [hd]
    simp only [Bool.false_eq_true, if_false]
    exact ih (fun q hq => h q (List.mem_cons_of_mem _ hq))

/-- The bash per-token substitution maps a token that is exactly the
placeholder `${name}` to the literal parameter value, provided no
earlier parameter's placeholder occurs inside `${name}` and no later
parameter's placeholder occurs inside the value. -/
lemma subst_token_bash_full_token (ps₁ ps₂ : List (String × String))
    (name v : String)
    (h1 : ∀ p ∈ ps₁, ¬ (placeholder p.1 <:+: placeholder name))
    (h2 : ∀ p ∈ ps₂, ¬ (placeholder p.1 <:+: v.data)) :
    subst_token_bash (ps₁ ++ (name, v) :: ps₂) (placeholder name) = v.data := by
  unfold subst_token_bash
  rw [List.foldl_append]
  have e1 : ps₁.foldl (fun acc kv =>
      if decide ((placeholder kv.1) <:+: acc) then
        replace_all (placeholder kv.1) kv.2.data acc
      else acc) (placeholder name) = placeholder name :=
    subst_token_bash_id ps₁ (placeholder name) h1
  rw [e1, List.foldl_cons]
  have hd : (decide ((placeholder name) <:+: placeholder name)) = true := by
    simp [List.infix_refl]
  rw [hd]
  simp only [if_true]
  rw [replace_all_self _ _ (placeholder_ne_nil name)]
  exact subst_token_bash_id ps₂ v.data h2

/-- C2 (amended): the command template is tokenized by the POSIX
tokenizer before substitution, each `${name}` placeholder is replaced
inside its token by the parameter value, and the child receives the
computed argv directly (no shell).  The argv length always equals the
token count of the template — a parameter value can never split into
several arguments or add shell structure — and a token that is exactly
`${name}` becomes the literal value bytes as a single argument,
provided the value does not contain the placeholder of a
later-substituted parameter (and no earlier parameter's placeholder
overlaps `${name}` itself); without that proviso the value is
re-substituted, see the counterexample. -/
theorem c2_bash_value_single_literal_argument (template : String)
    (toks : List (List Char)) (params ps₁ ps₂ : List (String × String))
    (name v : String)
    (hsplit : shlex_split template = some toks) (hne : toks ≠ [])
    (hp : params = ps₁ ++ (name, v) :: ps₂)
    (h1 : ∀ p ∈ ps₁, ¬ (placeholder p.1 <:+: placeholder name))
    (h2 : ∀ p ∈ ps₂, ¬ (placeholder p.1 <:+: v.data)) :
    bash_child_argv template params =
      some (toks.map (subst_token_bash params)) ∧
    (toks.map (subst_token_bash params)).length = toks.length ∧
    (∀ i : Nat, toks[i]? = some (placeholder name) →
      (toks.map (subst_token_bash params))[i]? = some v.data) := by
  have hargv : bash_child_argv template params =
      some (toks.map (subst_token_bash params)) := by
    unfold bash_child_argv parse_command_to_argv
    rw [hsplit]
    match toks, hne with
    | t :: ts, _ => rfl
  refine ⟨hargv, by simp, ?_⟩
  intro i hi
  rw [List.getElem?_map, hi, Option.map_some', hp,
    subst_token_bash_full_token ps₁ ps₂ name v h1 h2]

/-- C2 witness: a value carrying every metacharacter named by the
claim reaches the child as one literal argument. -/
theorem c2_witness :
    bash_child_argv "echo ${msg}" [("msg", "a;b|c&d`e$f\ng")] =
      some (["echo".data, placeholder "msg"].map
        (subst_token_bash [("msg", "a;b|c&d`e$f\ng")])) ∧
    (["echo".data, placeholder "msg"].map
      (subst_token_bash [("msg", "a;b|c&d`e$f\ng")]))[1]? =
        some "a;b|c&d`e$f\ng".data := by
  have h := c2_bash_value_single_literal_argument "echo ${msg}"
    ["echo".data, placeholder "msg"] [("msg", "a;b|c&d`e$f\ng")] [] []
    "msg" "a;b|c&d`e$f\ng" (by rfl) (by decide) rfl
    (by intro p hp; simp at hp) (by intro p hp; simp at hp)
  exact ⟨h.1, h.2.2 1 rfl⟩

/-- C2 counterexample: a parameter value that contains the placeholder
text of a later parameter is substituted again, so the child does not
receive the `$`-bytes of the value literally: with parameters
`a = "${b}"`, `b = "x"` the child argv is `["echo", "x"]` and the
bytes `${b}` appear in no argument. -/
theorem c2_counterexample :
    bash_child_argv "echo ${a}" [("a", "${b}"), ("b", "x")] =
      some ["echo".data, "x".data] ∧
    ¬ ("${b}".data <:+: "echo".data) ∧
    ¬ ("${b}".data <:+: "x".data) := by
  refine ⟨rfl, by decide, by decide⟩

/-! ## Length lemma for replacement -/

lemma replace_all_fuel_length_ge (pat rep : List Char)
    (hpr : pat.length ≤ rep.length) :
    ∀ fuel s, s.length ≤ fuel →
      s.length ≤ (replace_all_fuel pat rep fuel s).length := by
  intro fuel
  induction fuel with
  | zero =>
    intro s hs
    omega
  | succ fuel ih =>
    intro s hs
    match s with
    | [] => simp
    | c :: rest =>
      rw [replace_all_fuel]
      split
      · rename_i hcond
        have hpne : pat.length ≠ 0 := by
          rcases Bool.and_eq_true _ _ |>.mp hcond with ⟨h1, _⟩
          simp only [Bool.not_eq_true'] at h1
          intro h0
          rw [List.length_eq_zero] at h0
          subst h0
          simp at h1
        have hple : pat.length ≤ (c :: rest).length := by
          rcases Bool.and_eq_true _ _ |>.mp hcond with ⟨_, h2⟩
          exact (List.isPrefixOf_iff_prefix.mp h2).length_le
        have hrec := ih ((c :: rest).drop pat.length)
          (by simp only [List.length_drop, List.length_cons] at *; omega)
        rw [List.length_append]
        simp only [List.length_drop] at hrec ⊢
        simp only [List.length_cons] at *
        omega
      · have hrec := ih rest (by simp only [List.length_cons] at hs; omega)
        simp only [List.length_cons]
        omega

/-- C10 (confirmed): HTTP-variant substitution replaces `${param}` in
the URL and header templates with the `shlex.quote`d form of the value,
not the literal value; for a value containing any unsafe character
(whitespace or a shell metacharacter) the substituted text is the value
wrapped in POSIX single quotes with embedded quotes rewritten, and the
dispatched bytes differ from the literal value. -/
theorem c10_http_substitution_is_shell_quoted (v : String)
    (hv : ∃ c ∈ v.data, ¬ shlex_safe_char c) :
    http_request_url "${p}" [("p", v)] = shlex_quote v.data ∧
    http_request_headers [("X-Token", "${p}")] [("p", v)] =
      [("X-Token", shlex_quote v.data)] ∧
    shlex_quote v.data =
      sq_char :: replace_all [sq_char]
        [sq_char, dq_char, sq_char, dq_char, sq_char] v.data ++ [sq_char] ∧
    shlex_quote v.data ≠ v.data := by
  obtain ⟨c, hc, hcs⟩ := hv
  have hsub : substitute_parameters "${p}" [("p", v)] = shlex_quote v.data := by
    unfold substitute_parameters
    rw [List.foldl_cons, List.foldl_nil]
    have e : ("${p}" : String).data = placeholder "p" := rfl
    rw [e, replace_all_self _ _ (placeholder_ne_nil "p")]
  have hne : v.data.isEmpty = false := by
    have : v.data ≠ [] := List.ne_nil_of_mem hc
    simpa [List.isEmpty_iff] using this
  have hall : v.data.all shlex_safe_char = false := by
    rw [List.all_eq_false]
    exact ⟨c, hc, by simpa using hcs⟩
  have hq : shlex_quote v.data =
      sq_char :: replace_all [sq_char]
        [sq_char, dq_char, sq_char, dq_char, sq_char] v.data ++ [sq_char] := by
    unfold shlex_quote
    rw [hne, hall]
    simp
  refine ⟨hsub, ?_, hq, ?_⟩
  · unfold http_request_headers
    rw [List.map_cons, List.map_nil, hsub]
  · intro heq
    have hlen : (shlex_quote v.data).length = v.data.length :=
      congrArg List.length heq
    rw [hq] at hlen
    have hbody : v.data.length ≤ (replace_all [sq_char]
        [sq_char, dq_char, sq_char, dq_char, sq_char] v.data).length := by
      unfold replace_all
      exact replace_all_fuel_length_ge _ _ (by simp) v.data.length v.data
        (le_refl _)
    simp only [List.length_cons, List.length_append, List.length_singleton]
      at hlen
    omega

/-- C10 witness: the value `"a b"` (contains a space) is dispatched as
`'a b'`, not as the literal bytes. -/
theorem c10_witness :
    http_request_url "${p}" [("p", "a b")] = shlex_quote "a b".data ∧
    shlex_quote "a b".data ≠ "a b".data := by
  have h := c10_http_substitution_is_shell_quoted "a b" (by decide)
  exact ⟨h.1, h.2.2.2⟩

/-! ## SSRF soundness lemmas -/

/-- The validator raised (`ToolExecutionError`). -/
def is_error {ε α : Type} : Except ε α → Bool
  | .error _ => true
  | .ok _ => false

lemma is_error_pure : is_error (pure () : Except String Unit) = false := rfl

lemma except_seq_is_error (a b : Except String Unit) :
    is_error (a >>= fun _ => b) = (is_error a || is_error b) := by
  cases a <;> rfl

/-- The blocked IPv4 categories named by the specification. -/
def ipv4_blocked (ip : Nat) : Bool :=
  ipv4_is_private ip || ipv4_is_loopback ip || ipv4_is_link_local ip ||
    ipv4_is_multicast ip || ipv4_is_reserved ip || ipv4_is_unspecified ip

/-- The blocked IPv6 categories of the address itself. -/
def ipv6_own_blocked (ip : Nat) : Bool :=
  ipv6_is_private ip || ipv6_is_loopback ip || ipv6_is_link_local ip ||
    ipv6_is_multicast ip || ipv6_is_reserved ip || ipv6_is_unspecified ip

/-- An address is in a blocked category: one of the six classes, or —
for IPv6 — a blocked IPv4 embedded in the mapped, 6to4 or Teredo form. -/
def ip_blocked_category : IPAddr → Bool
  | .v4 ip => ipv4_blocked ip
  | .v6 ip =>
    ipv6_own_blocked ip ||
    (match ipv6_ipv4_mapped ip with
     | some m => ipv4_blocked m
     | none => false) ||
    (match ipv6_sixtofour ip with
     | some s => ipv4_blocked s
     | none => false) ||
    (match ipv6_teredo ip with
     | some p => ipv4_blocked p.1 || ipv4_blocked p.2
     | none => false)

lemma validate_ip4_is_error (ip : Nat) :
    is_error (validate_ip4 ip) = ipv4_blocked ip := by
  unfold validate_ip4 ipv4_blocked
  repeat' split
  all_goals simp_all [is_error]

lemma validate_ip6_embedded_is_error (ip : Nat) :
    is_error (validate_ip6_embedded ip) =
      ((match ipv6_ipv4_mapped ip with
        | some m => ipv4_blocked m
        | none => false) ||
       (match ipv6_sixtofour ip with
        | some s => ipv4_blocked s
        | none => false) ||
       (match ipv6_teredo ip with
        | some p => ipv4_blocked p.1 || ipv4_blocked p.2
        | none => false)) := by
  unfold validate_ip6_embedded
  cases hm : ipv6_ipv4_mapped ip <;> cases hs : ipv6_sixtofour ip <;>
    cases ht : ipv6_teredo ip <;>
    simp [except_seq_is_error, validate_ip4_is_error, is_error_pure,
      Bool.or_assoc]

lemma validate_ip6_is_error (ip : Nat) :
    is_error (validate_ip6 ip) = ip_blocked_category (.v6 ip) := by
  have hE := validate_ip6_embedded_is_error ip
  unfold validate_ip6
  simp only [ip_blocked_category, ipv6_own_blocked]
  repeat' split
  all_goals simp_all [is_error, Bool.or_assoc]

/-- `_validate_ip_address` raises exactly on the blocked categories
(including the embedded IPv4 forms). -/
lemma validate_ip_address_is_error (a : IPAddr) :
    is_error (validate_ip_address a) = ip_blocked_category a := by
  cases a with
  | v4 ip => exact validate_ip4_is_error ip
  | v6 ip => exact validate_ip6_is_error ip

lemma validate_ip_list_error (infos : List IPAddr) (a : IPAddr)
    (ha : a ∈ infos) (hbad : is_error (validate_ip_address a) = true) :
    is_error (validate_ip_list infos) = true := by
  induction infos with
  | nil => simp at ha
  | cons b rest ih =>
    have : validate_ip_list (b :: rest) =
        (validate_ip_address b >>= fun _ => validate_ip_list rest) := rfl
    rw [this, except_seq_is_error]
    rcases List.mem_cons.mp ha with rfl | hmem
    · rw [hbad]; rfl
    · rw [ih hmem, Bool.or_true]

lemma sent_false_of_error (resolve : String → Option (List IPAddr))
    (u : ParsedUrl) (h : is_error (validate_url_ssrf resolve u) = true) :
    http_request_sent resolve u = false := by
  unfold http_request_sent
  cases hv : validate_url_ssrf resolve u
  · rfl
  · rw [hv] at h
    simp [is_error] at h

lemma validate_url_name_branch (resolve : String → Option (List IPAddr))
    (scheme h : String)
    (hsch : (scheme == "http" || scheme == "https") = true) :
    validate_url_ssrf resolve ⟨scheme, some (.name h)⟩ =
      (if blocked_hosts.contains (py_lower h) then
        Except.error "Access to internal hostname blocked"
      else if blocked_suffixes.any
          (fun suf => List.isSuffixOf suf.data (py_lower h).data) then
        Except.error "Access to internal domain blocked"
      else
        match resolve h with
        | none => Except.error "Failed to resolve hostname"
        | some infos =>
          if infos.isEmpty then Except.error "Could not resolve hostname"
          else validate_ip_list infos) := by
  unfold validate_url_ssrf
  rw [if_neg (by simp [hsch])]

/-- C3 (confirmed): no HTTP request is dispatched when the URL scheme
is not http/https, when the host is an IP literal in a blocked
category (private, loopback, link-local, multicast, reserved,
unspecified — including a blocked IPv4 embedded in an IPv4-mapped,
6to4 or Teredo IPv6 form), when the lower-cased hostname is
`localhost` or ends in a blocked suffix, or when any DNS-resolved
address of the hostname is in a blocked category; in each case the
validator raises before `_execute_http_request` is reached. -/
theorem c3_ssrf_blocked_never_dispatched
    (resolve : String → Option (List IPAddr)) (u : ParsedUrl) :
    (¬ (u.scheme = "http" ∨ u.scheme = "https") →
      http_request_sent resolve u = false) ∧
    (∀ a, u.host = some (.ip a) → ip_blocked_category a = true →
      http_request_sent resolve u = false) ∧
    (∀ h, u.host = some (.name h) → py_lower h = "localhost" →
      http_request_sent resolve u = false) ∧
    (∀ h suf, u.host = some (.name h) → suf ∈ blocked_suffixes →
      List.isSuffixOf suf.data (py_lower h).data = true →
      http_request_sent resolve u = false) ∧
    (∀ h infos a, u.host = some (.name h) → resolve h = some infos →
      a ∈ infos → ip_blocked_category a = true →
      http_request_sent resolve u = false) := by
  have hschemecase : ∀ hs : ¬ (u.scheme == "http" || u.scheme == "https") = true,
      http_request_sent resolve u = false := by
    intro hs
    apply sent_false_of_error
    unfold validate_url_ssrf
    rw [if_pos hs]
    rfl
  refine ⟨?_, ?_, ?_, ?_, ?_⟩
  · intro hbad
    apply hschemecase
    simp only [Bool.or_eq_true, beq_iff_eq]
    exact hbad
  · intro a ha hbad
    by_cases hs : (u.scheme == "http" || u.scheme == "https") = true
    · apply sent_false_of_error
      unfold validate_url_ssrf
      rw [if_neg (by simp [hs]), ha]
      show is_error (validate_ip_address a) = true
      rw [validate_ip_address_is_error]
      exact hbad
    · exact hschemecase hs
  · intro h ha hloc
    by_cases hs : (u.scheme == "http" || u.scheme == "https") = true
    · apply sent_false_of_error
      have hu : u = ⟨u.scheme, some (.name h)⟩ := by
        cases u; simp_all
      rw [hu, validate_url_name_branch resolve u.scheme h hs, hloc]
      rfl
    · exact hschemecase hs
  · intro h suf ha hsuf hmatch
    by_cases hs : (u.scheme == "http" || u.scheme == "https") = true
    · apply sent_false_of_error
      have hu : u = ⟨u.scheme, some (.name h)⟩ := by
        cases u; simp_all
      rw [hu, validate_url_name_branch resolve u.scheme h hs]
      by_cases hc : blocked_hosts.contains (py_lower h) = true
      · rw [if_pos hc]; rfl
      · rw [if_neg hc,
          if_pos (List.any_eq_true.mpr ⟨suf, hsuf, hmatch⟩)]
        rfl
    · exact hschemecase hs
  · intro h infos a ha hres hmem hbad
    by_cases hs : (u.scheme == "http" || u.scheme == "https") = true
    · apply sent_false_of_error
      have hu : u = ⟨u.scheme, some (.name h)⟩ := by
        cases u; simp_all
      rw [hu, validate_url_name_branch resolve u.scheme h hs]
      by_cases hc : blocked_hosts.contains (py_lower h) = true
      · rw [if_pos hc]; rfl
      · rw [if_neg hc]
        by_cases hsf : blocked_suffixes.any
            (fun suf => List.isSuffixOf suf.data (py_lower h).data) = true
        · rw [if_pos hsf]; rfl
        · rw [if_neg hsf, hres]
          have hne : infos.isEmpty = false := by
            have : infos ≠ [] := List.ne_nil_of_mem hmem
            simpa [List.isEmpty_iff] using this
          show is_error (if infos.isEmpty = true then
              Except.error "Could not resolve hostname"
            else validate_ip_list infos) = true
          rw [if_neg (by simp [hne])]
          exact validate_ip_list_error infos a hmem
            (by rw [validate_ip_address_is_error]; exact hbad)
    · exact hschemecase hs

/-- C3 witness: a loopback IP literal and a hostname resolving to a
private address are both rejected before dispatch. -/
theorem c3_witness :
    http_request_sent (fun _ => none)
      ⟨"https", some (.ip (.v4 (mk_ipv4 127 0 0 1)))⟩ = false ∧
    http_request_sent (fun _ => some [.v4 (mk_ipv4 10 0 0 5)])
      ⟨"http", some (.name "internal-api.example.com")⟩ = false := by
  constructor
  · exact (c3_ssrf_blocked_never_dispatched (fun _ => none)
      ⟨"https", some (.ip (.v4 (mk_ipv4 127 0 0 1)))⟩).2.1
      (.v4 (mk_ipv4 127 0 0 1)) rfl (by decide)
  · exact (c3_ssrf_blocked_never_dispatched
      (fun _ => some [.v4 (mk_ipv4 10 0 0 5)])
      ⟨"http", some (.name "internal-api.example.com")⟩).2.2.2.2
      "internal-api.example.com" [.v4 (mk_ipv4 10 0 0 5)]
      (.v4 (mk_ipv4 10 0 0 5)) rfl rfl (by decide) (by decide)

/-! ## Budget lemmas -/

lemma check_budget_spec (t : CostTracker)
    (hpos : 0 < t.config.budget_limit_usd) :
    ((check_budget t = .exceeded) ↔
      1 ≤ t.total_cost_usd / t.config.budget_limit_usd) ∧
    ((check_budget t = .approvalRequired) ↔
      (t.total_cost_usd / t.config.budget_limit_usd < 1 ∧
       t.config.require_approval_at ≤
         t.total_cost_usd / t.config.budget_limit_usd ∧
       t.budget_approved = false)) := by
  unfold check_budget
  rw [if_neg (not_le.mpr hpos)]
  by_cases h1 : 1 ≤ t.total_cost_usd / t.config.budget_limit_usd
  · rw [if_pos h1]
    refine ⟨⟨fun _ => h1, fun _ => rfl⟩, ?_, ?_⟩
    · intro hcontr
      exact absurd hcontr (by decide)
    · rintro ⟨hlt, _, _⟩
      exact absurd h1 (not_le.mpr hlt)
  · rw [if_neg h1]
    by_cases h2 : t.config.require_approval_at ≤
        t.total_cost_usd / t.config.budget_limit_usd ∧ ¬ t.budget_approved
    · rw [if_pos h2]
      have happ : t.budget_approved = false := by
        revert h2
        cases t.budget_approved <;> simp
      refine ⟨⟨fun hc => absurd hc (by decide), fun hh => absurd hh h1⟩,
        fun _ => ⟨not_le.mp h1, h2.1, happ⟩, fun _ => rfl⟩
    · rw [if_neg h2]
      refine ⟨⟨fun hc => absurd hc (by decide), fun hh => absurd hh h1⟩,
        ⟨fun hc => absurd hc (by decide), ?_⟩⟩
      rintro ⟨_, hge, happ⟩
      exact (h2 ⟨hge, by simp [happ]⟩).elim

/-- C7 (confirmed): `add_usage` records the event and updates the
totals first; with a non-positive budget limit it never raises; with a
positive limit, letting `r` be the post-event ratio of the running
total to the limit, it raises `BudgetExceeded` exactly when `r ≥ 1`,
raises `BudgetApprovalRequired` exactly when `r < 1`, `r ≥
require_approval_at` and the budget is not yet approved, and returns
the event otherwise; `approve_budget` sets the approved flag, after
which `BudgetApprovalRequired` is never raised again (only the hard
limit still stops the run). -/
theorem c7_add_usage_budget_gates (t : CostTracker) (model : String)
    (itok otok : Nat) (phase : Option String) :
    (t.config.budget_limit_usd ≤ 0 →
      (add_usage t model itok otok phase).2.1 = .ok) ∧
    (0 < t.config.budget_limit_usd →
      (((add_usage t model itok otok phase).2.1 = .exceeded) ↔
        1 ≤ (add_usage t model itok otok phase).1.total_cost_usd /
          t.config.budget_limit_usd) ∧
      (((add_usage t model itok otok phase).2.1 = .approvalRequired) ↔
        ((add_usage t model itok otok phase).1.total_cost_usd /
            t.config.budget_limit_usd < 1 ∧
         t.config.require_approval_at ≤
           (add_usage t model itok otok phase).1.total_cost_usd /
             t.config.budget_limit_usd ∧
         t.budget_approved = false))) ∧
    (t.budget_approved = true →
      (add_usage t model itok otok phase).2.1 ≠ .approvalRequired) ∧
    ((approve_budget t).budget_approved = true) ∧
    ((add_usage t model itok otok phase).1.budget_approved =
      t.budget_approved) ∧
    ((add_usage t model itok otok phase).1.events =
      t.events ++ [(add_usage t model itok otok phase).2.2]) := by
  have hout : (add_usage t model itok otok phase).2.1 =
      check_budget (add_usage t model itok otok phase).1 := rfl
  have hcfg : (add_usage t model itok otok phase).1.config = t.config := rfl
  have happ : (add_usage t model itok otok phase).1.budget_approved =
      t.budget_approved := rfl
  refine ⟨?_, ?_, ?_, rfl, rfl, rfl⟩
  · intro hle
    rw [hout]
    unfold check_budget
    rw [hcfg, if_pos hle]
  · intro hpos
    have hspec := check_budget_spec (add_usage t model itok otok phase).1
      (by rw [hcfg]; exact hpos)
    rw [hcfg, happ] at hspec
    rw [hout]
    exact hspec
  · intro happr
    rw [hout]
    by_cases hpos : 0 < t.config.budget_limit_usd
    · have hspec := check_budget_spec (add_usage t model itok otok phase).1
        (by rw [hcfg]; exact hpos)
      rw [happ] at hspec
      intro hcontr
      have := hspec.2.mp hcontr
      rw [happr] at this
      exact absurd this.2.2 (by decide)
    · unfold check_budget
      rw [hcfg, if_pos (not_lt.mp hpos)]
      decide

/-- C7 witness: with the default `$10` limit, a `$5` event (one
million tokens at the default rate) is recorded and returns normally. -/
theorem c7_witness :
    ((add_usage { config := { budget_limit_usd := 10 } } "some-model"
      1000000 0 none).2.1 = .ok) ∧
    ((add_usage { config := { budget_limit_usd := 0 } } "some-model"
      1000000 0 none).2.1 = .ok) := by
  constructor
  · have h := (c7_add_usage_budget_gates
      { config := { budget_limit_usd := 10 } } "some-model" 1000000 0 none).2.1
      (by norm_num)
    rcases hc : (add_usage { config := { budget_limit_usd := 10 } }
        "some-model" 1000000 0 none).2.1 with _ | _ | _
    · rfl
    · exfalso
      have := h.2.mp hc
      revert this
      norm_num [add_usage, pydict_get]
    · exfalso
      have := h.1.mp hc
      revert this
      norm_num [add_usage, pydict_get]
  · exact (c7_add_usage_budget_gates
      { config := { budget_limit_usd := 0 } } "some-model" 1000000 0 none).1
      (by norm_num)

/-! ## Approval-queue lemmas -/

lemma pydict_get_set_self {α : Type} (l : List (String × α)) (k : String)
    (v : α) : pydict_get (pydict_set l k v) k = some v := by
  unfold pydict_set pydict_get
  split
  · rename_i hany
    induction l with
    | nil => simp at hany
    | cons p rest ih =>
      rw [List.map_cons]
      by_cases hp : p.1 == k
      · rw [if_pos hp]
        simp [List.find?]
      · rw [if_neg hp]
        have hrest : rest.any (fun q => q.1 == k) = true := by
          rcases List.any_eq_true.mp hany with ⟨q, hq, hqk⟩
          rcases List.mem_cons.mp hq with rfl | hqr
          · exact absurd hqk hp
          · exact List.any_eq_true.mpr ⟨q, hqr, hqk⟩
        have := ih hrest
        simpa [List.find?, Bool.of_not_eq_true hp] using this
  · rename_i hany
    have hnone : l.find? (fun q => q.1 == k) = none := by
      rw [List.find?_eq_none]
      intro q hq hqk
      exact hany (List.any_eq_true.mpr ⟨q, hq, hqk⟩)
    rw [List.find?_append, hnone]
    simp [List.find?]

/-- The first response-dict check of `_wait_for_response` returns an
already-submitted response immediately, for any timeout. -/
lemma wait_for_response_pre_submitted (tm : Nat)
    (responses : List (String × ApprovalResponse)) (rid : String)
    (poll : Nat → Option ApprovalResponse) (r : ApprovalResponse)
    (h : pydict_get responses rid = some r) :
    wait_for_response tm responses rid poll = r := by
  unfold wait_for_response
  rw [wait_loop, h]

/-! ## Demo approval data -/

def demo_request : ApprovalRequest :=
  { id := "APR-1", workflow_id := "WF-1", phase := "build",
    question := "Proceed?" }

def demo_queue : ApprovalQueueState :=
  { pending_requests := [("APR-1", demo_request)] }

def resp_approve : ApprovalResponse :=
  { request_id := "APR-1", decision := "approve" }

def resp_reject : ApprovalResponse :=
  { request_id := "APR-1", decision := "reject" }

/-- C8 (amended): while a request is pending, every `submit_response`
for its id is accepted (returns `True`) and *overwrites* the stored
response; the waiting requester observes the most recent response
submitted before its first check, not the first one. -/
theorem c8_submit_response_last_wins (q : ApprovalQueueState)
    (r1 r2 : ApprovalResponse) (rid : String)
    (h1 : r1.request_id = rid) (h2 : r2.request_id = rid)
    (hp : (pydict_get q.pending_requests rid).isSome = true) :
    (submit_response q r1).2 = true ∧
    (submit_response (submit_response q r1).1 r2).2 = true ∧
    pydict_get (submit_response (submit_response q r1).1 r2).1.responses
      rid = some r2 ∧
    (∀ tm poll, wait_for_response tm
      (submit_response (submit_response q r1).1 r2).1.responses rid poll =
        r2) := by
  have hs1 : submit_response q r1 =
      ({ q with responses := pydict_set q.responses rid r1 }, true) := by
    unfold submit_response
    rw [h1, if_pos hp]
  have hs2 : submit_response
      { q with responses := pydict_set q.responses rid r1 } r2 =
      ({ q with responses :=
          pydict_set (pydict_set q.responses rid r1) rid r2 }, true) := by
    unfold submit_response
    rw [h2, if_pos hp]
  rw [hs1]
  dsimp only
  rw [hs2]
  dsimp only
  refine ⟨rfl, rfl, pydict_get_set_self .., ?_⟩
  intro tm poll
  exact wait_for_response_pre_submitted tm _ rid poll r2
    (pydict_get_set_self ..)

/-- C8 witness: on a concrete pending request, submitting approve then
reject makes the requester observe reject. -/
theorem c8_witness :
    (submit_response demo_queue resp_approve).2 = true ∧
    wait_for_response 60 (submit_response
      (submit_response demo_queue resp_approve).1 resp_reject).1.responses
      "APR-1" (fun _ => none) = resp_reject := by
  have h := c8_submit_response_last_wins demo_queue resp_approve resp_reject
    "APR-1" rfl rfl (by decide)
  exact ⟨h.1, h.2.2.2 60 (fun _ => none)⟩

/-- C8 counterexample: submitting approve and then reject for the same
pending request id leaves reject as the stored response, and the
waiting requester receives reject — the first submission did not win,
so `submit_response` is not first-wins idempotent. -/
theorem c8_counterexample :
    pydict_get (submit_response (submit_response demo_queue
      resp_approve).1 resp_reject).1.responses "APR-1" =
        some resp_reject ∧
    wait_for_response 60 (submit_response (submit_response demo_queue
      resp_approve).1 resp_reject).1.responses "APR-1"
      (fun _ => none) = resp_reject ∧
    resp_reject ≠ resp_approve := by
  refine ⟨rfl, rfl, by decide⟩

/-- C9 (amended): with `timeout_minutes = 0`, `_wait_for_response`
returns a response already submitted to the queue if one is present at
the first responses-dict check, and otherwise returns the synthesized
timeout response immediately — the response-channel adapters are never
polled, whatever they would answer. -/
theorem c9_zero_timeout_no_adapter_poll
    (responses : List (String × ApprovalResponse)) (rid : String)
    (poll : Nat → Option ApprovalResponse) :
    (∀ r, pydict_get responses rid = some r →
      wait_for_response 0 responses rid poll = r) ∧
    (pydict_get responses rid = none →
      wait_for_response 0 responses rid poll = timeout_response rid) := by
  constructor
  · intro r h
    exact wait_for_response_pre_submitted 0 responses rid poll r h
  · intro h
    unfold wait_for_response
    rw [wait_loop, h]
    simp

/-- C9 witness: a pre-submitted response is returned at zero timeout. -/
theorem c9_witness :
    wait_for_response 0 [("APR-1", resp_approve)] "APR-1"
      (fun _ => none) = resp_approve :=
  (c9_zero_timeout_no_adapter_poll [("APR-1", resp_approve)] "APR-1"
    (fun _ => none)).1 resp_approve rfl

/-- C9 counterexample: with zero timeout and an adapter that would
answer approve at the very first poll, `_wait_for_response` still
returns the synthesized timeout response — the timeout check precedes
the first adapter poll. -/
theorem c9_counterexample :
    wait_for_response 0 [] "APR-1" (fun _ => some resp_approve) =
      timeout_response "APR-1" ∧
    timeout_response "APR-1" ≠ resp_approve := by
  refine ⟨rfl, by decide⟩
